import Mathlib

/-!
Shallow embedding of the site-layout generator (services/generator.ts,
entry point generateBuilding) of the Master_Planning repository.

Modelling conventions:
- JavaScript numbers are modelled as rationals (ℚ).  All arithmetic the
  source performs directly (grid sizing, slicing, setbacks, thresholds)
  is transcribed literally over ℚ.
- Turf.js geometry features are an abstract type `F`; every turf call the
  source makes is a field of the `Geo F` oracle structure.  Turf calls
  that the source wraps in try/catch or null-checks are Option-valued
  fields; a `none` result covers both a thrown exception and a null
  return, which the source treats identically at every wrapped call
  site (the feature is skipped or a fallback value is kept).
- Math.random() is modelled as an explicit stream `r : Nat → ℚ` together
  with a consumption index that is threaded in source order through the
  randomised steps (building depth/height/color draws, tree side draw,
  park tree placement draws).
- Feature `properties` mutations (lotId, parkId, heightFactor, ...) are
  write-only in generateBuilding (they are only read by downstream
  consumers), so they are not tracked; the stream index is still
  advanced where the source draws random property values.
- Math.floor / Math.ceil are modelled by ratFloor / ratCeil (floor and
  ceiling toward minus/plus infinity, as in JavaScript).
-/

/-- Math.floor on a rational (round toward minus infinity). -/
def ratFloor (q : ℚ) : ℤ := q.num.fdiv q.den

/-- Math.ceil on a rational (round toward plus infinity). -/
def ratCeil (q : ℚ) : ℤ := -(ratFloor (-q))

/-- A geographic coordinate pair, as in types.ts. -/
structure LatLng where
  lat : ℚ
  lng : ℚ
deriving DecidableEq

/-- The six-field configuration record of types.ts (SiteConfig).
entryIndex is used by the source only as a nonnegative integer index. -/
structure SiteConfig where
  roadWidth : ℚ
  lotWidth : ℚ
  lotDepth : ℚ
  parkPercentage : ℚ
  stories : ℚ
  entryIndex : Nat
deriving DecidableEq

/-- The constraint kinds of types.ts (only PARK_ANCHOR exists). -/
inductive ConstraintType where
  | PARK_ANCHOR : ConstraintType
deriving DecidableEq

/-- A user constraint (types.ts UserConstraint); the string id is not
read by the generator and is omitted. -/
structure UserConstraint where
  type : ConstraintType
  position : LatLng
deriving DecidableEq

/-- The seven-field statistics record of types.ts (ProjectStats). -/
structure ProjectStats where
  siteArea : ℚ
  netSellableArea : ℚ
  roadArea : ℚ
  parkArea : ℚ
  totalLots : Nat
  efficiency : ℚ
  possibleEntrances : Nat
deriving DecidableEq

/-- An axis-aligned bounding box [minX, minY, maxX, maxY] as returned by
turf.bbox and consumed by turf.bboxPolygon. -/
structure BBox where
  minX : ℚ
  minY : ℚ
  maxX : ℚ
  maxY : ℚ
deriving DecidableEq

/-- The oracle of turf.js operations used by generateBuilding.  `F` is
the type of GeoJSON features.  Option-valued fields model calls that can
throw or return null; total fields model calls the source never guards
and that cannot fail on the inputs the source passes them. -/
structure Geo (F : Type) where
  mkPolygon : List (ℚ × ℚ) → Option F
  mkPoint : ℚ × ℚ → F
  mkLineString : List (ℚ × ℚ) → F
  mkPolygonRing : List (ℚ × ℚ) → F
  mkMultiPolygon : List (List (ℚ × ℚ)) → F
  coord : F → ℚ × ℚ
  ringCoords : F → List (ℚ × ℚ)
  bbox : F → BBox
  bboxPolygon : BBox → F
  area : F → ℚ
  distance : F → F → ℚ
  bearing : F → F → ℚ
  destination : F → ℚ → ℚ → F
  center : F → F
  cleanCoords : F → F
  rewind : F → F
  isEmptyGeom : F → Bool
  kinksCount : F → Nat
  transformRotate : F → ℚ → F → F
  booleanIntersects : F → F → Bool
  booleanPointInPolygon : F → F → Bool
  intersect : F → F → Option F
  difference : F → F → Option F
  union : F → F → Option F
  dissolve : List F → Option (List F)
  buffer : F → ℚ → Option F
  isMultiPolygon : F → Bool
  multiPolyParts : F → List F
  polygonToLine : F → Option F
  nearestPointOnLine : F → F → F
  lineIntersect : F → F → List F
  lineSplit : F → F → List F
  length : F → ℚ
  along : F → ℚ → F
  circle : F → ℚ → Nat → F
  cosDeg : ℚ → ℚ

/-- The classification of a grid cell ("unknown" | "park" | "residential"). -/
inductive CellType where
  | unknown : CellType
  | park : CellType
  | residential : CellType
deriving DecidableEq, BEq

/-- One entry of the gridInfo array (generator.ts lines 141-148), plus a
creation-order index `idx` standing in for JavaScript object identity. -/
structure GridCell (F : Type) where
  idx : Nat
  poly : F
  ctype : CellType
  originalPoly : F
  col : Nat
  row : Nat
  originalBbox : BBox

/-- One entrance candidate ({ midpoint, roadBearing }, generator.ts line 606). -/
structure Cand (F : Type) where
  midpoint : F
  roadBearing : ℚ

/-- The AccessControl record of types.ts (GATE variant as built by
generateBuilding). -/
structure AccessControl (F : Type) where
  gateType : String
  island : F
  guardHouse : F
  barriers : List F
  entryPoint : LatLng
  rotation : ℚ

/-- The GeneratedGeometry record of types.ts, restricted to the fields
generateBuilding actually populates. -/
structure GenGeometry (F : Type) where
  siteBoundary : Option F
  superblocks : List F
  roads : List F
  lots : List F
  buildings : List F
  parks : List F
  trees : List F
  perimeterWalls : List F
  accessControl : Option (AccessControl F)
  roadMarkings : List F
  stopSigns : List F
  entranceCandidates : List LatLng
  isValid : Bool
  error : Option String

/-- The pair returned by generateBuilding. -/
structure GenResult (F : Type) where
  geometry : GenGeometry F
  stats : ProjectStats

/-- emptyStats (generator.ts lines 48-56). -/
def emptyStats : ProjectStats :=
  { siteArea := 0, netSellableArea := 0, roadArea := 0, parkArea := 0,
    totalLots := 0, efficiency := 0, possibleEntrances := 0 }

/-- emptyGeometry (generator.ts lines 58-72); the optional error string
is absent. -/
def emptyGeometry {F : Type} : GenGeometry F :=
  { siteBoundary := none, superblocks := [], roads := [], lots := [],
    buildings := [], parks := [], trees := [], perimeterWalls := [],
    accessControl := none, roadMarkings := [], stopSigns := [],
    entranceCandidates := [], isValid := false, error := none }

/-- Ring closing (generator.ts lines 81-87): append the first coordinate
when the ring is not already closed. -/
def closeRing (coords : List (ℚ × ℚ)) : List (ℚ × ℚ) :=
  match coords with
  | [] => []
  | c :: rest =>
    if (c :: rest).getLast (by simp) ≠ c then (c :: rest) ++ [c]
    else c :: rest

/-- getPrincipalAxis (generator.ts lines 6-25): bearing of the longest
edge of the outer ring, 0 when fewer than two ring coordinates exist. -/
def getPrincipalAxis {F : Type} (G : Geo F) (poly : F) : ℚ :=
  let coords := G.ringCoords poly
  let pairs := coords.zip coords.tail
  (pairs.foldl
    (fun (acc : ℚ × ℚ) pq =>
      let dist := G.distance (G.mkPoint pq.1) (G.mkPoint pq.2)
      if dist > acc.1 then (dist, G.bearing (G.mkPoint pq.1) (G.mkPoint pq.2))
      else acc)
    (0, 0)).2

/-- safePolygonToLine (generator.ts lines 27-40): polygonToLine with all
failure modes collapsed to none. -/
def safePolygonToLine {F : Type} (G : Geo F) (poly : F) : Option F :=
  G.polygonToLine poly

/-- The grid sizing values of generator.ts lines 132-159 (block/road
sizes in local degrees, grid extents and centered origin).
lotsPerBlockRow is the fixed constant 8 of line 134. -/
structure GridParams where
  targetBlockWidthDeg : ℚ
  blockDepthDeg : ℚ
  roadWidthDegX : ℚ
  roadWidthDegY : ℚ
  xStep : ℚ
  yStep : ℚ
  startX : ℚ
  startY : ℚ
  numCols : ℤ
  numRows : ℤ

/-- Computes the grid parameters (generator.ts lines 132-159).  When a
step is zero the JavaScript division yields Infinity and the grid loop
would not terminate; over ℚ division by zero yields 0, so the embedded
grid is empty in that degenerate configuration. -/
def mkGridParams (cfg : SiteConfig) (bb : BBox) (Mx My : ℚ) : GridParams :=
  let blockDepthDeg := (cfg.lotDepth * 2) * My
  let targetBlockWidthDeg := (cfg.lotWidth * 8) * Mx
  let roadWidthDegX := cfg.roadWidth * Mx
  let roadWidthDegY := cfg.roadWidth * My
  let xStep := targetBlockWidthDeg + roadWidthDegX
  let yStep := blockDepthDeg + roadWidthDegY
  let width := bb.maxX - bb.minX
  let height := bb.maxY - bb.minY
  let numCols := ratCeil (width / xStep)
  let numRows := ratCeil (height / yStep)
  let startX := bb.minX + (width - (numCols * xStep)) / 2
  let startY := bb.minY + (height - (numRows * yStep)) / 2
  { targetBlockWidthDeg := targetBlockWidthDeg, blockDepthDeg := blockDepthDeg,
    roadWidthDegX := roadWidthDegX, roadWidthDegY := roadWidthDegY,
    xStep := xStep, yStep := yStep, startX := startX, startY := startY,
    numCols := numCols, numRows := numRows }

/-- The loop index list of `for (let i = -2; i < count + 2; i++)`
(bufferCols = bufferRows = 2, generator.ts lines 161-168). -/
def gridIdxList (count : ℤ) : List ℤ :=
  (List.range (count + 4).toNat).map (fun n => (n : ℤ) - 2)

/-- The loop index list of `for (let i = -2; i <= count + 2; i++)`
used by the road projection loops (generator.ts lines 613, 620). -/
def gridIdxListIncl (count : ℤ) : List ℤ :=
  (List.range (count + 5).toNat).map (fun n => (n : ℤ) - 2)

/-- The grid cell construction double loop (generator.ts lines 164-201):
each cell box is intersected with the working parcel and kept when the
intersection area exceeds 50; col and row are the loop counters. -/
def gridCells {F : Type} (G : Geo F) (gp : GridParams) (working : F) :
    List (GridCell F) :=
  let raw : List (GridCell F) :=
    (gridIdxList gp.numCols).enum.flatMap (fun ci =>
      (gridIdxList gp.numRows).enum.filterMap (fun rj =>
        let x := gp.startX + (ci.2 : ℚ) * gp.xStep
        let y := gp.startY + (rj.2 : ℚ) * gp.yStep
        let cellBox : BBox :=
          { minX := x, minY := y, maxX := x + gp.targetBlockWidthDeg,
            maxY := y + gp.blockDepthDeg }
        let cellPoly := G.bboxPolygon cellBox
        if G.booleanIntersects cellPoly working then
          match G.intersect cellPoly working with
          | some inter =>
            if G.area inter > 50 then
              some ({ idx := 0, poly := inter, ctype := CellType.unknown,
                      originalPoly := cellPoly, col := ci.1, row := rj.1,
                      originalBbox := cellBox } : GridCell F)
            else none
          | none => none
        else none))
  raw.enum.map (fun (nc : Nat × GridCell F) => { nc.2 with idx := nc.1 })

/-- The road intersection points pushed for every cell of the double
loop, before any parcel test (generator.ts lines 174-176). -/
def intersectionPts (gp : GridParams) : List (ℚ × ℚ) :=
  (gridIdxList gp.numCols).flatMap (fun i =>
    (gridIdxList gp.numRows).map (fun j =>
      let x := gp.startX + (i : ℚ) * gp.xStep
      let y := gp.startY + (j : ℚ) * gp.yStep
      (x + gp.targetBlockWidthDeg + gp.roadWidthDegX / 2,
       y + gp.blockDepthDeg + gp.roadWidthDegY / 2)))

/-- Forcing cells that contain a PARK_ANCHOR constraint to park
(generator.ts lines 203-212).  The pairs carry the constraint type and
the rotated localPos point. -/
def applyAnchors {F : Type} (G : Geo F) (workingCons : List (ConstraintType × F))
    (cells : List (GridCell F)) : List (GridCell F) :=
  cells.map (fun c =>
    if workingCons.any (fun wc =>
        match wc.1 with
        | ConstraintType.PARK_ANCHOR => G.booleanPointInPolygon wc.2 c.poly)
    then { c with ctype := CellType.park } else c)

/-- The park quota classification (generator.ts lines 214-238): sort all
cells by descending area (the mutating Array.sort of line 219), take the
still-unknown ones in ascending area order, and greedily mark them park
until the cumulative park area reaches the target, the rest residential.
The source writes the types back through shared object references; here
the write-back is performed through the creation index `idx` (the second
write-back loop of lines 235-238 is a no-op under reference sharing). -/
def classify {F : Type} (G : Geo F) (cfg : SiteConfig)
    (cells : List (GridCell F)) : List (GridCell F) :=
  let totalBlockArea := (cells.map (fun c => G.area c.poly)).sum
  let targetParkArea := totalBlockArea * (cfg.parkPercentage / 100)
  let initParkArea :=
    ((cells.filter (fun c => c.ctype == CellType.park)).map
      (fun c => G.area c.poly)).sum
  let sorted := List.mergeSort cells (fun a b => decide (G.area b.poly ≤ G.area a.poly))
  let pparks := List.mergeSort (sorted.filter (fun c => c.ctype == CellType.unknown))
    (fun a b => decide (G.area a.poly ≤ G.area b.poly))
  let assignments := (pparks.foldl
    (fun (acc : List (Nat × CellType) × ℚ) c =>
      if acc.2 < targetParkArea then
        ((c.idx, CellType.park) :: acc.1, acc.2 + G.area c.poly)
      else ((c.idx, CellType.residential) :: acc.1, acc.2))
    ([], initParkArea)).1
  sorted.map (fun c =>
    match assignments.lookup c.idx with
    | some t => { c with ctype := t }
    | none => c)

/-- Finding the worst merge candidate (generator.ts lines 362-373): the
first lot of strictly smallest area among lots below minViableArea.
The none result models minScore staying Infinity. -/
def findWorst (minViable : ℚ) (areas : List ℚ) : Option Nat :=
  (areas.enum.foldl
    (fun (best : Option (Nat × ℚ)) (p : Nat × ℚ) =>
      match best with
      | none => if p.2 < minViable then some p else best
      | some is => if p.2 < minViable ∧ p.2 < is.2 then some p else best)
    none).map (fun p => p.1)

/-- Choice of the merge neighbor (generator.ts lines 375-387): the only
existing neighbor, or the strictly smaller one when both exist; on equal
neighbor areas the strict `<` comparison selects the right neighbor. -/
def mergeTargetIdx {F : Type} (G : Geo F) (lots : List F) (worstIdx : Nat) :
    Option Nat :=
  let areas := lots.map G.area
  let mergeLeft := decide (0 < worstIdx)
  let mergeRight := decide (worstIdx < lots.length - 1)
  if mergeLeft && !mergeRight then some (worstIdx - 1)
  else if mergeRight && !mergeLeft then some (worstIdx + 1)
  else if mergeLeft && mergeRight then
    if areas.getD (worstIdx - 1) 0 < areas.getD (worstIdx + 1) 0 then
      some (worstIdx - 1)
    else some (worstIdx + 1)
  else none

/-- One iteration of the smart merge while-loop (generator.ts lines
360-413).  some lots2 corresponds to an iteration that set keepMerging;
none corresponds to the loop exiting (no qualifying lot, union failure,
or an acceptable irregular corner lot). -/
def smartMergeStep {F : Type} (G : Geo F) (targetLotArea : ℚ)
    (lots : List F) : Option (List F) :=
  let minViable := targetLotArea * 0.75
  match findWorst minViable (lots.map G.area) with
  | none => none
  | some w =>
    match mergeTargetIdx G lots w with
    | some t =>
      let idxA := min w t
      match lots.drop idxA with
      | a :: b :: _ =>
        (G.union a b).map (fun u => lots.take idxA ++ u :: lots.drop (idxA + 2))
      | _ => none
    | none =>
      if (lots.map G.area).getD w 0 < targetLotArea * 0.4 then
        some (lots.take w ++ lots.drop (w + 1))
      else none

/-- Fuel-bounded unfolding of the smart merge while-loop.  Every
continuing iteration of the source loop strictly shrinks the lot list
(a splice merges two lots into one or deletes one), so the initial list
length bounds the number of iterations. -/
def smartMergeAux {F : Type} (G : Geo F) (targetLotArea : ℚ) :
    Nat → List F → List F
  | 0, lots => lots
  | fuel + 1, lots =>
    match smartMergeStep G targetLotArea lots with
    | some lots2 => smartMergeAux G targetLotArea fuel lots2
    | none => lots

/-- The full smart merge loop (generator.ts lines 354-413). -/
def smartMerge {F : Type} (G : Geo F) (targetLotArea : ℚ) (lots : List F) :
    List F :=
  smartMergeAux G targetLotArea lots.length lots

/-- processZone without the per-lot asset generation (generator.ts lines
316-418): split MultiPolygon zones, discard zones below half a nominal
lot, slice each zone into equal-width strips intersected with the zone,
run the smart merge, and keep the surviving lots of area at least 20.
The per-lot asset generation (lines 419-461) is performed separately by
lotListAssets over exactly this surviver list, in the same order. -/
def processZoneLots {F : Type} (G : Geo F) (cfg : SiteConfig)
    (targetLotArea : ℚ) (zonePoly : F) : List F :=
  let zones := if G.isMultiPolygon zonePoly then G.multiPolyParts zonePoly
               else [zonePoly]
  zones.flatMap (fun zone =>
    if G.area zone < targetLotArea * 0.5 then []
    else
      let zb := G.bbox zone
      let zoneWidthM :=
        G.distance (G.mkPoint (zb.minX, zb.minY)) (G.mkPoint (zb.maxX, zb.minY))
          * 1000
      let numLots := (max (ratFloor (zoneWidthM / cfg.lotWidth)) 1).toNat
      let sliceWidthDeg := (zb.maxX - zb.minX) / (numLots : ℚ)
      let candidateLots := (List.range numLots).filterMap (fun k =>
        let sliceStart := zb.minX + (k : ℚ) * sliceWidthDeg
        let sliceEnd :=
          if k = numLots - 1 then zb.maxX + 1 / 1000000
          else sliceStart + sliceWidthDeg
        G.intersect
          (G.bboxPolygon
            { minX := sliceStart, minY := zb.minY, maxX := sliceEnd,
              maxY := zb.maxY }) zone)
      let merged := smartMerge G targetLotArea candidateLots
      merged.filter (fun l => !(decide (G.area l < 20))))

/-- The per-residential-block pure outputs: the road-carved block
polygon, the surviving bottom and top band lots, and the park fallback
taken when the block produced no lots but has area above 50. -/
structure BlockOut (F : Type) where
  processedBlock : F
  bottomLots : List F
  topLots : List F
  fallbackPark : Option F

/-- The road carving of generator.ts lines 293-311: when land exists
where the grid road should be, cut the road box out of the block;
any failure leaves the block unchanged. -/
def carveRoad {F : Type} (G : Geo F) (working pb roadBox : F) : F :=
  match G.intersect roadBox working with
  | some _ =>
    match G.difference pb roadBox with
    | some d => d
    | none => pb
  | none => pb

/-- The pure part of one residential block iteration (generator.ts lines
281-487): cleanCoords, bottom/top road carving, the band split at the
cell midline, lot subdivision per band, and the park fallback for a
block that yielded no lots (lines 477-486). -/
def processBlockPure {F : Type} (G : Geo F) (cfg : SiteConfig)
    (gp : GridParams) (working : F) (block : GridCell F) : BlockOut F :=
  let pb0 := G.cleanCoords block.poly
  let bb := block.originalBbox
  let gridMidY := bb.minY + (bb.maxY - bb.minY) / 2
  let bottomRoadBox := G.bboxPolygon
    { minX := bb.minX, minY := bb.minY - gp.roadWidthDegY, maxX := bb.maxX,
      maxY := bb.minY }
  let pb1 := carveRoad G working pb0 bottomRoadBox
  let topRoadBox := G.bboxPolygon
    { minX := bb.minX, minY := bb.maxY, maxX := bb.maxX,
      maxY := bb.maxY + gp.roadWidthDegY }
  let pb2 := carveRoad G working pb1 topRoadBox
  let targetLotArea := cfg.lotWidth * cfg.lotDepth
  let bottomBand := G.bboxPolygon
    { minX := bb.minX, minY := bb.minY, maxX := bb.maxX, maxY := gridMidY }
  let topBand := G.bboxPolygon
    { minX := bb.minX, minY := gridMidY, maxX := bb.maxX, maxY := bb.maxY }
  let bottomLots :=
    match G.intersect pb2 bottomBand with
    | some z => processZoneLots G cfg targetLotArea z
    | none => []
  let topLots :=
    match G.intersect pb2 topBand with
    | some z => processZoneLots G cfg targetLotArea z
    | none => []
  let fallbackPark :=
    if bottomLots.length + topLots.length == 0 then
      if G.area pb2 > 50 then some pb2 else none
    else none
  { processedBlock := pb2, bottomLots := bottomLots, topLots := topLots,
    fallbackPark := fallbackPark }

/-- The per-lot building and tree generation (generator.ts lines
419-461) for one surviving lot.  Returns the optional clipped building,
the optional tree point, and the advanced random stream index.  Stream
draw order follows the source exactly: depthFactor, then (only when a
clipped building exists) heightFactor and colorVariant, then the tree
side draw. -/
def processLotAssets {F : Type} (G : Geo F) (Mx My : ℚ) (isBottom : Bool)
    (lot : F) (r : Nat → ℚ) (k : Nat) : Option F × Option F × Nat :=
  let bb := G.bbox lot
  let lotH := bb.maxY - bb.minY
  let sideSetback := 0.6 * Mx
  let rearSetback := 1.0 * My
  let depthFactor := 0.50 + r k * 0.1
  let k1 := k + 1
  let buildingDepthDeg := lotH * depthFactor
  let bMinX := bb.minX + sideSetback
  let bMaxX := bb.maxX - sideSetback
  let bMaxY := if isBottom then bb.maxY - rearSetback
               else (bb.minY + rearSetback) + buildingDepthDeg
  let bMinY := if isBottom then (bb.maxY - rearSetback) - buildingDepthDeg
               else bb.minY + rearSetback
  let bk : Option F × Nat :=
    if bMinX < bMaxX - 1 * Mx ∧ bMinY < bMaxY - 1 * My then
      match G.intersect
        (G.bboxPolygon { minX := bMinX, minY := bMinY, maxX := bMaxX,
                         maxY := bMaxY }) lot with
      | some clipped => (some clipped, k1 + 2)
      | none => (none, k1)
    else (none, k1)
  let k2 := bk.2
  let isLeft := r k2 > 0.5
  let k3 := k2 + 1
  let treeX0 := if isLeft then bb.minX + 1.0 * Mx else bb.maxX - 1.0 * Mx
  let treeY0 := if isBottom then bb.minY + 2.5 * My else bb.maxY - 2.5 * My
  let treeX := max bb.minX (min bb.maxX treeX0)
  let treeY := max bb.minY (min bb.maxY treeY0)
  let idealTreePt := G.mkPoint (treeX, treeY)
  let tree := if G.booleanPointInPolygon idealTreePt lot then some idealTreePt
              else none
  (bk.1, tree, k3)

/-- Asset generation folded over the surviving lots of one band, in
order (the mergedLots.forEach of generator.ts line 416). -/
def lotListAssets {F : Type} (G : Geo F) (Mx My : ℚ) (isBottom : Bool)
    (lots : List F) (r : Nat → ℚ) (k : Nat) : List F × List F × Nat :=
  lots.foldl
    (fun (acc : List F × List F × Nat) lot =>
      let btk := processLotAssets G Mx My isBottom lot r acc.2.2
      (acc.1 ++ btk.1.toList, acc.2.1 ++ btk.2.1.toList, btk.2.2))
    ([], [], k)

/-- The rejection-sampling loop of fillParkWithTrees (generator.ts lines
262-275), recursing on the remaining attempt budget. -/
def fillParkAux {F : Type} (G : Geo F) (searchPoly : F) (bb : BBox)
    (target : Nat) (r : Nat → ℚ) :
    Nat → List F → Nat → List F × Nat
  | 0, placed, k => (placed, k)
  | rem + 1, placed, k =>
    if placed.length < target then
      let lng := bb.minX + r k * (bb.maxX - bb.minX)
      let lat := bb.minY + r (k + 1) * (bb.maxY - bb.minY)
      let k2 := k + 2
      let pt := G.mkPoint (lng, lat)
      if G.booleanPointInPolygon pt searchPoly then
        if placed.any (fun t => decide (G.distance pt t * 1000 < 4)) then
          fillParkAux G searchPoly bb target r rem placed k2
        else fillParkAux G searchPoly bb target r rem (placed ++ [pt]) k2
      else fillParkAux G searchPoly bb target r rem placed k2
    else (placed, k)

/-- fillParkWithTrees (generator.ts lines 247-276): target count from
park area at density 40 (at least 3, at most 500), attempt budget 15 per
target tree, sampling the park bbox and keeping points inside the
negatively buffered park at pairwise distance at least 4 meters.  The
parkId written to the tree properties is not tracked. -/
def fillParkWithTrees {F : Type} (G : Geo F) (parkPoly : F) (r : Nat → ℚ)
    (k : Nat) : List F × Nat :=
  let parkArea := G.area parkPoly
  let targetTreeCount := max (ratFloor (parkArea / 40)) 3
  let actualTarget := (min targetTreeCount 500).toNat
  let parkBbox := G.bbox parkPoly
  let searchPoly :=
    match G.buffer parkPoly (-0.002) with
    | some b => b
    | none => parkPoly
  fillParkAux G searchPoly parkBbox actualTarget r (actualTarget * 15) [] k

/-- The randomised assets of one residential block iteration: bottom
band lots, then top band lots, then (for a block that produced no lots
and fell back to park) the park trees, in source stream order. -/
def blockAssets {F : Type} (G : Geo F) (Mx My : ℚ) (bo : BlockOut F)
    (r : Nat → ℚ) (k : Nat) : List F × List F × Nat :=
  let b1 := lotListAssets G Mx My true bo.bottomLots r k
  let b2 := lotListAssets G Mx My false bo.topLots r b1.2.2
  match bo.fallbackPark with
  | some p =>
    let pk := fillParkWithTrees G p r b2.2.2
    (b1.1 ++ b2.1, b1.2.1 ++ b2.2.1 ++ pk.1, pk.2)
  | none => (b1.1 ++ b2.1, b1.2.1 ++ b2.2.1, b2.2.2)

/-- All randomised assets of one run: per residential block in order,
then the trees of the merged park polygons (generator.ts lines 517-534),
starting from stream index 0.  Returns (buildings, trees). -/
def allAssets {F : Type} (G : Geo F) (Mx My : ℚ) (blocks : List (BlockOut F))
    (mergedParks : List F) (r : Nat → ℚ) : List F × List F :=
  let bt := blocks.foldl
    (fun (acc : List F × List F × Nat) bo =>
      let btk := blockAssets G Mx My bo r acc.2.2
      (acc.1 ++ btk.1, acc.2.1 ++ btk.2.1, btk.2.2))
    ([], [], 0)
  let pt := mergedParks.foldl
    (fun (acc : List F × Nat) p =>
      let tk := fillParkWithTrees G p r acc.2
      (acc.1 ++ tk.1, tk.2))
    ([], bt.2.2)
  (bt.1, bt.2.1 ++ pt.1)

/-- The thin gap filler polygons between neighboring park cells
(generator.ts lines 496-514), looked up by grid (col,row) adjacency and
clipped to the working parcel. -/
def parkGaps {F : Type} (G : Geo F) (working : F)
    (parkBlocks : List (GridCell F)) : List F :=
  let eps : ℚ := 1 / 1000000
  parkBlocks.flatMap (fun p =>
    let rightGap :=
      match parkBlocks.find? (fun q => q.col == p.col + 1 && q.row == p.row) with
      | some rt =>
        (G.intersect
          (G.bboxPolygon
            { minX := p.originalBbox.maxX - eps,
              minY := max p.originalBbox.minY rt.originalBbox.minY,
              maxX := rt.originalBbox.minX + eps,
              maxY := min p.originalBbox.maxY rt.originalBbox.maxY })
          working).toList
      | none => []
    let topGap :=
      match parkBlocks.find? (fun q => q.col == p.col && q.row == p.row + 1) with
      | some tp =>
        (G.intersect
          (G.bboxPolygon
            { minX := max p.originalBbox.minX tp.originalBbox.minX,
              minY := p.originalBbox.maxY - eps,
              maxX := min p.originalBbox.maxX tp.originalBbox.maxX,
              maxY := tp.originalBbox.minY + eps })
          working).toList
      | none => []
    rightGap ++ topGap)

/-- The park merging stage (generator.ts lines 491-535): dissolve the
park cell polygons together with the gap fillers; each merged feature is
rewound.  On dissolve failure fall back to the unmerged park cell
polygons.  The returned list is exactly what the source appends to both
tempParks and tempSuperblocks and seeds with trees. -/
def mergedParkList {F : Type} (G : Geo F) (working : F)
    (parkBlocks : List (GridCell F)) : List F :=
  if parkBlocks.isEmpty then []
  else
    let featuresToMerge :=
      parkBlocks.map (fun p => p.poly) ++ parkGaps G working parkBlocks
    match G.dissolve featuresToMerge with
    | some feats => feats.map G.rewind
    | none => parkBlocks.map (fun p => p.poly)

/-- Rotating a feature list back to the original frame (generator.ts
line 594). -/
def rotateBack {F : Type} (G : Geo F) (angle : ℚ) (pivot : F)
    (features : List F) : List F :=
  features.map (fun f => G.transformRotate f angle pivot)

/-- generateZebraStripes (generator.ts lines 551-583): alternating
stripe boxes along one crossing arm; stripes overlapping a park are
suppressed; none when every stripe was suppressed.  The while-loop over
currY/currX advances by a fixed positive step (1.2 length units scaled),
so its iteration count is the ceiling of span/step. -/
def generateZebraStripes {F : Type} (G : Geo F) (cfg : SiteConfig)
    (Mx My : ℚ) (tempParks : List F) (cx cy : ℚ) (isVertical : Bool) :
    Option F :=
  let stripeW_DegX := 0.6 * Mx
  let stripeW_DegY := 0.6 * My
  let pathW_DegX := 4.0 * Mx
  let pathW_DegY := 4.0 * My
  let roadW_DegX := cfg.roadWidth * Mx
  let roadW_DegY := cfg.roadWidth * My
  let gap_DegX := 0.6 * Mx
  let gap_DegY := 0.6 * My
  let boxes : List (List (ℚ × ℚ)) :=
    if isVertical then
      let totalHeight := roadW_DegY * 0.8
      let startY := cy - (totalHeight / 2)
      let stripeH := stripeW_DegY
      let gapH := gap_DegY
      let stripeLen := pathW_DegX
      let step := stripeH + gapH
      let count := if 0 < step then (ratCeil (totalHeight / step)).toNat else 0
      (List.range count).filterMap (fun n =>
        let currY := startY + (n : ℚ) * step
        let box := [(cx - stripeLen / 2, currY), (cx + stripeLen / 2, currY),
                    (cx + stripeLen / 2, currY + stripeH),
                    (cx - stripeLen / 2, currY + stripeH),
                    (cx - stripeLen / 2, currY)]
        if tempParks.any (fun park =>
            G.booleanIntersects (G.mkPolygonRing box) park) then none
        else some box)
    else
      let totalWidth := roadW_DegX * 0.8
      let startX := cx - (totalWidth / 2)
      let stripeW := stripeW_DegX
      let gapW := gap_DegX
      let stripeLen := pathW_DegY
      let step := stripeW + gapW
      let count := if 0 < step then (ratCeil (totalWidth / step)).toNat else 0
      (List.range count).filterMap (fun n =>
        let currX := startX + (n : ℚ) * step
        let box := [(currX, cy - stripeLen / 2), (currX + stripeW, cy - stripeLen / 2),
                    (currX + stripeW, cy + stripeLen / 2),
                    (currX, cy + stripeLen / 2), (currX, cy - stripeLen / 2)]
        if tempParks.any (fun park =>
            G.booleanIntersects (G.mkPolygonRing box) park) then none
        else some box)
  if boxes.isEmpty then none else some (G.mkMultiPolygon boxes)

/-- The road marking stage (generator.ts lines 541-592): for every grid
intersection point inside the working parcel, not inside a park, and
within 2 road widths of a park boundary, generate up to four zebra arms,
each kept only when its own center also lies inside the parcel. -/
def computeMarkings {F : Type} (G : Geo F) (cfg : SiteConfig) (Mx My : ℚ)
    (workingSitePoly : F) (tempParks : List F) (parkBoundaries : List F)
    (ipts : List (ℚ × ℚ)) : List F :=
  let roadWidthDegX := cfg.roadWidth * Mx
  let roadWidthDegY := cfg.roadWidth * My
  ipts.flatMap (fun ip =>
    let ipt := G.mkPoint ip
    if G.booleanPointInPolygon ipt workingSitePoly then
      if tempParks.any (fun p => G.booleanPointInPolygon ipt p) then []
      else
        let isNearPark := parkBoundaries.any (fun pl =>
          decide (G.distance ipt (G.nearestPointOnLine pl ipt) * 1000 <
            cfg.roadWidth * 2))
        if isNearPark then
          let offsets : List (ℚ × ℚ × Bool) :=
            [(0, roadWidthDegY * 0.65, false), (0, -(roadWidthDegY * 0.65), false),
             (roadWidthDegX * 0.65, 0, true), (-(roadWidthDegX * 0.65), 0, true)]
          offsets.filterMap (fun off =>
            match generateZebraStripes G cfg Mx My tempParks (ip.1 + off.1)
              (ip.2 + off.2.1) off.2.2 with
            | some zebra =>
              if G.booleanPointInPolygon (G.mkPoint (ip.1 + off.1, ip.2 + off.2.1))
                  workingSitePoly then some zebra
              else none
            | none => none)
        else []
    else [])

/-- The road projection lines of the access-point finder (generator.ts
lines 612-626): vertical road centerlines for every column boundary,
then horizontal ones for every row boundary, each rotated back to the
original frame and paired with its road bearing. -/
def roadProjectionLines {F : Type} (G : Geo F) (gp : GridParams) (bb : BBox)
    (alignmentAngle : ℚ) (center : F) : List (F × ℚ) :=
  let verticals := (gridIdxListIncl gp.numCols).map (fun i =>
    let x := gp.startX + (i : ℚ) * gp.xStep
    let roadCenterX := x + gp.targetBlockWidthDeg + (gp.roadWidthDegX / 2)
    let lineLocal := G.mkLineString
      [(roadCenterX, bb.minY - 0.05), (roadCenterX, bb.maxY + 0.05)]
    (G.transformRotate lineLocal alignmentAngle center, alignmentAngle))
  let horizontals := (gridIdxListIncl gp.numRows).map (fun j =>
    let y := gp.startY + (j : ℚ) * gp.yStep
    let roadCenterY := y + gp.blockDepthDeg + (gp.roadWidthDegY / 2)
    let lineLocal := G.mkLineString
      [(bb.minX - 0.05, roadCenterY), (bb.maxX + 0.05, roadCenterY)]
    (G.transformRotate lineLocal alignmentAngle center, alignmentAngle + 90))
  verticals ++ horizontals

/-- The raw entrance candidates (generator.ts lines 627-644): boundary
intersections of every projection line, probed 2 meters to each side;
kept when the interior-side probe lies in the parcel and is not inside
any superblock or park. -/
def computeCandidatesRaw {F : Type} (G : Geo F) (lines : List (F × ℚ))
    (boundaryLine originalSitePoly : F)
    (finalSuperblocks finalParks : List F) : List (Cand F) :=
  lines.flatMap (fun item =>
    (G.lineIntersect item.1 boundaryLine).filterMap (fun pt =>
      let bearing := item.2
      let p1 := G.destination pt 0.002 bearing
      let p2 := G.destination pt 0.002 (bearing + 180)
      let insidePoint :=
        if G.booleanPointInPolygon p1 originalSitePoly then some p1
        else if G.booleanPointInPolygon p2 originalSitePoly then some p2
        else none
      match insidePoint with
      | some ip =>
        let isBlockedBySuperblock :=
          finalSuperblocks.any (fun block => G.booleanPointInPolygon ip block)
        let isBlockedByPark :=
          finalParks.any (fun park => G.booleanPointInPolygon ip park)
        if isBlockedBySuperblock || isBlockedByPark then none
        else some { midpoint := pt, roadBearing := item.2 }
      | none => none))

/-- Deduplication of candidates within 15 meters (generator.ts lines
646-650), preserving first-seen order. -/
def dedupCandidates {F : Type} (G : Geo F) (cands : List (Cand F)) :
    List (Cand F) :=
  cands.foldl
    (fun (acc : List (Cand F)) cand =>
      if acc.any (fun u => decide (G.distance cand.midpoint u.midpoint * 1000 < 15))
      then acc
      else acc ++ [cand])
    []

/-- The stable angular sort of candidates around the parcel center
(generator.ts lines 651-655). -/
def sortCandidates {F : Type} (G : Geo F) (center : F)
    (cands : List (Cand F)) : List (Cand F) :=
  List.mergeSort cands (fun a b =>
    decide (G.bearing center a.midpoint ≤ G.bearing center b.midpoint))

/-- The entrance selection of generator.ts lines 657-659:
`safeIndex = entryIndex % length; selected = list[safeIndex]`, guarded
by a non-emptiness test; JavaScript out-of-range indexing is modelled by
the optional list lookup. -/
def selectEntrance {α : Type} (entryIndex : Nat) (cands : List α) : Option α :=
  if 0 < cands.length then cands[entryIndex % cands.length]? else none

/-- The gate structure built at the selected candidate (generator.ts
lines 660-686): rotated island and guard house boxes and two barrier
segments from the island edge to half the road width. -/
def mkGate {F : Type} (G : Geo F) (cfg : SiteConfig) (sel : Cand F) :
    AccessControl F :=
  let pt := sel.midpoint
  let rotation := sel.roadBearing
  let islandWidth := (2.2 : ℚ) / 111320
  let islandLength := (8 : ℚ) / 111320
  let houseWidth := (1.5 : ℚ) / 111320
  let houseLength := (3 : ℚ) / 111320
  let pc := G.coord pt
  let island := G.transformRotate
    (G.bboxPolygon
      { minX := pc.1 - islandWidth / 2, minY := pc.2 - islandLength / 2,
        maxX := pc.1 + islandWidth / 2, maxY := pc.2 + islandLength / 2 })
    rotation pt
  let guardHouse := G.transformRotate
    (G.bboxPolygon
      { minX := pc.1 - houseWidth / 2, minY := pc.2 - houseLength / 4,
        maxX := pc.1 + houseWidth / 2, maxY := pc.2 + houseLength / 4 })
    rotation pt
  let leftStart := G.destination pt (islandWidth / 2000) (rotation - 90)
  let leftEnd := G.destination pt ((cfg.roadWidth / 2) / 1000) (rotation - 90)
  let leftBarrier := G.mkLineString [G.coord leftStart, G.coord leftEnd]
  let rightStart := G.destination pt (islandWidth / 2000) (rotation + 90)
  let rightEnd := G.destination pt ((cfg.roadWidth / 2) / 1000) (rotation + 90)
  let rightBarrier := G.mkLineString [G.coord rightStart, G.coord rightEnd]
  { gateType := "GATE", island := island, guardHouse := guardHouse,
    barriers := [leftBarrier, rightBarrier],
    entryPoint := { lat := pc.2, lng := pc.1 }, rotation := rotation }

/-- The access control construction over the sorted deduplicated
candidate list (generator.ts lines 657-687). -/
def buildAccess {F : Type} (G : Geo F) (cfg : SiteConfig)
    (cands : List (Cand F)) : Option (AccessControl F) :=
  (selectEntrance cfg.entryIndex cands).map (mkGate G cfg)

/-- cutoutRadius (generator.ts line 694): the perimeter notch radius in
kilometers, 0.6 times the road width converted to kilometers. -/
def cutoutRadius (cfg : SiteConfig) : ℚ := (cfg.roadWidth / 1000) * 0.6

/-- The perimeter wall construction (generator.ts lines 692-708): with a
gate, split the boundary line by the notch circle and keep the segments
of positive length whose midpoint is outside the notch; with no access
point, the single unbroken boundary loop.  The unguarded polygonToLine
of the notch circle failing aborts the run (none). -/
def buildWalls {F : Type} (G : Geo F) (cfg : SiteConfig) (boundaryLine : F)
    (access : Option (AccessControl F)) : Option (List F) :=
  match access with
  | none => some [boundaryLine]
  | some a =>
    let entryPoint := G.mkPoint (a.entryPoint.lng, a.entryPoint.lat)
    let maskPoly := G.circle entryPoint (cutoutRadius cfg) 16
    match G.polygonToLine maskPoly with
    | none => none
    | some maskLine =>
      let split := G.lineSplit boundaryLine maskLine
      if 0 < split.length then
        some (split.filterMap (fun seg =>
          let len := G.length seg
          if 0 < len then
            if G.booleanPointInPolygon (G.along seg (len / 2)) maskPoly then none
            else some seg
          else none))
      else some [boundaryLine]

/-- The two early returns of generateBuilding that still produce a
specific result: the empty-geometry rejection of line 93 and the
self-intersection rejection of lines 99-110. -/
inductive EarlyExit (F : Type) where
  | invalidGeom : EarlyExit F
  | selfIntersect : F → EarlyExit F

/-- The results of the early returns (generator.ts lines 94 and
101-109): empty stats, empty geometry except for the error string, and
for the self-intersection case the site boundary. -/
def earlyResult {F : Type} : EarlyExit F → GenResult F
  | EarlyExit.invalidGeom =>
    { geometry := { emptyGeometry with error := some ("Invalid Geometry") },
      stats := emptyStats }
  | EarlyExit.selfIntersect site =>
    { geometry :=
        { emptyGeometry with
            siteBoundary := some site,
            isValid := false,
            error := some ("El polígono se intersecta a sí mismo") },
      stats := emptyStats }

/-- The generic catch of generator.ts lines 718-720: any exception in
the pipeline body yields empty geometry with the generic error. -/
def calcFailedResult {F : Type} : GenResult F :=
  { geometry := { emptyGeometry with error := some ("Calculation Failed") },
    stats := emptyStats }

/-- Everything one run computes that does not depend on the random
stream: the validated site, frame data, per-block subdivision outputs,
the merged feature lists (working and rotated back), candidates, access
control, walls, markings, and the statistics record. -/
structure SitePlan (F : Type) where
  sitePoly : F
  siteArea : ℚ
  center : F
  alignmentAngle : ℚ
  Mx : ℚ
  My : ℚ
  blocks : List (BlockOut F)
  mergedParks : List F
  tempLots : List F
  tempParks : List F
  tempSuperblocks : List F
  finalLots : List F
  finalParks : List F
  finalSuperblocks : List F
  finalMarkings : List F
  boundaryLine : F
  candidates : List (Cand F)
  access : Option (AccessControl F)
  walls : List F
  entranceCandidatesLL : List LatLng
  stats : ProjectStats

/-- The deterministic body of generateBuilding inside the top-level try
(generator.ts lines 79-713 minus the randomised asset generation).
none models an exception reaching the top-level catch: the polygon
constructor throwing on a degenerate ring, the explicit
`throw new Error("Area too small")` of line 113, or an unguarded turf
call failing.  some (Sum.inl e) models the two specific early returns;
some (Sum.inr plan) models a run that reaches the final return. -/
def genCore {F : Type} (G : Geo F) (pts : List LatLng) (cfg : SiteConfig)
    (cons : List UserConstraint) : Option (EarlyExit F ⊕ SitePlan F) :=
  match G.mkPolygon (closeRing (pts.map (fun p => (p.lng, p.lat)))) with
  | none => none
  | some poly0 =>
    if G.isEmptyGeom (G.cleanCoords poly0) then
      some (Sum.inl EarlyExit.invalidGeom)
    else
      let site := G.rewind (G.cleanCoords poly0)
      if 0 < G.kinksCount site then
        some (Sum.inl (EarlyExit.selfIntersect site))
      else
        let siteArea := G.area site
        if siteArea < 100 then none
        else
          let center := G.center site
          let alignmentAngle := getPrincipalAxis G site
          let workingSitePoly := G.transformRotate site (-alignmentAngle) center
          let workingEffectivePoly :=
            G.transformRotate site (-alignmentAngle) center
          let workingCons := cons.map (fun c =>
            (c.type,
             G.transformRotate (G.mkPoint (c.position.lng, c.position.lat))
               (-alignmentAngle) center))
          let centerLat := (G.coord center).2
          let My : ℚ := 1 / 111320
          let Mx : ℚ := 1 / (111320 * G.cosDeg centerLat)
          let bb := G.bbox workingEffectivePoly
          let gp := mkGridParams cfg bb Mx My
          let cells := applyAnchors G workingCons (gridCells G gp workingEffectivePoly)
          let classified := classify G cfg cells
          let parkBlocks := classified.filter (fun c => c.ctype == CellType.park)
          let residentialBlocks :=
            classified.filter (fun c => !(c.ctype == CellType.park))
          let blocks :=
            residentialBlocks.map (processBlockPure G cfg gp workingEffectivePoly)
          let tempLots := blocks.flatMap (fun bo => bo.bottomLots ++ bo.topLots)
          let blockSuperblocks := blocks.filterMap (fun bo =>
            if 0 < bo.bottomLots.length + bo.topLots.length ∨ bo.fallbackPark.isSome
            then some bo.processedBlock else none)
          let fallbackParks := blocks.filterMap (fun bo => bo.fallbackPark)
          let mergedParks := mergedParkList G workingEffectivePoly parkBlocks
          let tempParks := fallbackParks ++ mergedParks
          let tempSuperblocks := blockSuperblocks ++ mergedParks
          let parkBoundaries := tempParks.filterMap (safePolygonToLine G)
          let tempMarkings := computeMarkings G cfg Mx My workingSitePoly
            tempParks parkBoundaries (intersectionPts gp)
          let finalSuperblocks := rotateBack G alignmentAngle center tempSuperblocks
          let finalLots := rotateBack G alignmentAngle center tempLots
          let finalParks := rotateBack G alignmentAngle center tempParks
          let finalMarkings := rotateBack G alignmentAngle center tempMarkings
          match G.polygonToLine site with
          | none => none
          | some boundaryLine =>
            let candidates :=
              if 0 < finalSuperblocks.length then
                sortCandidates G center (dedupCandidates G
                  (computeCandidatesRaw G
                    (roadProjectionLines G gp bb alignmentAngle center)
                    boundaryLine site finalSuperblocks finalParks))
              else []
            let access :=
              if 0 < finalSuperblocks.length then buildAccess G cfg candidates
              else none
            match buildWalls G cfg boundaryLine access with
            | none => none
            | some walls =>
              let netSellableArea := (finalLots.map G.area).sum
              let parkArea := (finalParks.map G.area).sum
              some (Sum.inr
                { sitePoly := site, siteArea := siteArea, center := center,
                  alignmentAngle := alignmentAngle, Mx := Mx, My := My,
                  blocks := blocks, mergedParks := mergedParks,
                  tempLots := tempLots, tempParks := tempParks,
                  tempSuperblocks := tempSuperblocks, finalLots := finalLots,
                  finalParks := finalParks, finalSuperblocks := finalSuperblocks,
                  finalMarkings := finalMarkings, boundaryLine := boundaryLine,
                  candidates := candidates, access := access, walls := walls,
                  entranceCandidatesLL := candidates.map (fun c =>
                    { lat := (G.coord c.midpoint).2, lng := (G.coord c.midpoint).1 }),
                  stats :=
                    { siteArea := siteArea, netSellableArea := netSellableArea,
                      roadArea := siteArea - netSellableArea - parkArea,
                      parkArea := parkArea, totalLots := finalLots.length,
                      efficiency := netSellableArea / siteArea,
                      possibleEntrances := candidates.length } })

/-- The final successful return of generateBuilding (generator.ts lines
714-717), assembling the plan with the randomised buildings and trees
(rotated back like every other feature list). -/
def assembleResult {F : Type} (G : Geo F) (plan : SitePlan F)
    (builds trees : List F) : GenResult F :=
  { geometry :=
      { siteBoundary := some plan.sitePoly,
        superblocks := plan.finalSuperblocks,
        roads := [],
        lots := plan.finalLots,
        buildings := rotateBack G plan.alignmentAngle plan.center builds,
        parks := plan.finalParks,
        trees := rotateBack G plan.alignmentAngle plan.center trees,
        perimeterWalls := plan.walls,
        accessControl := plan.access,
        roadMarkings := plan.finalMarkings,
        stopSigns := [],
        entranceCandidates := plan.entranceCandidatesLL,
        isValid := true,
        error := none },
    stats := plan.stats }

/-- generateBuilding (generator.ts lines 42-721), over the turf oracle
`G` and the Math.random stream `r`. -/
def generateBuilding {F : Type} (G : Geo F) (pts : List LatLng)
    (cfg : SiteConfig) (cons : List UserConstraint) (r : Nat → ℚ) :
    GenResult F :=
  if pts.length < 3 then { geometry := emptyGeometry, stats := emptyStats }
  else
    match genCore G pts cfg cons with
    | none => calcFailedResult
    | some (Sum.inl e) => earlyResult e
    | some (Sum.inr plan) =>
      let assets := allAssets G plan.Mx plan.My plan.blocks plan.mergedParks r
      assembleResult G plan assets.1 assets.2

/-- A trivial oracle over the unit feature type: every geometric query
answers with a fixed harmless value (no kinks, zero area, no feature
results).  Used to evaluate the embedded pipeline on concrete inputs. -/
def geoUnit : Geo Unit :=
  { mkPolygon := fun _ => some (), mkPoint := fun _ => (),
    mkLineString := fun _ => (), mkPolygonRing := fun _ => (),
    mkMultiPolygon := fun _ => (), coord := fun _ => (0, 0),
    ringCoords := fun _ => [], bbox := fun _ => { minX := 0, minY := 0, maxX := 0, maxY := 0 },
    bboxPolygon := fun _ => (), area := fun _ => 0,
    distance := fun _ _ => 0, bearing := fun _ _ => 0,
    destination := fun _ _ _ => (), center := fun _ => (),
    cleanCoords := fun f => f, rewind := fun f => f,
    isEmptyGeom := fun _ => false, kinksCount := fun _ => 0,
    transformRotate := fun f _ _ => f, booleanIntersects := fun _ _ => false,
    booleanPointInPolygon := fun _ _ => false, intersect := fun _ _ => none,
    difference := fun _ _ => none, union := fun _ _ => none,
    dissolve := fun _ => none, buffer := fun _ _ => none,
    isMultiPolygon := fun _ => false, multiPolyParts := fun _ => [],
    polygonToLine := fun _ => none, nearestPointOnLine := fun _ p => p,
    lineIntersect := fun _ _ => [], lineSplit := fun _ _ => [],
    length := fun _ => 0, along := fun f _ => f, circle := fun _ _ _ => (),
    cosDeg := fun _ => 1 }

/-- The trivial oracle with a self-intersection reported for every
polygon. -/
def geoKink : Geo Unit := { geoUnit with kinksCount := fun _ => 1 }

/-- An oracle over rational features where a feature is identified with
its area and union adds areas; used to exercise the merge logic on
concrete area lists. -/
def geoQ : Geo ℚ :=
  { mkPolygon := fun _ => some 0, mkPoint := fun _ => 0,
    mkLineString := fun _ => 0, mkPolygonRing := fun _ => 0,
    mkMultiPolygon := fun _ => 0, coord := fun _ => (0, 0),
    ringCoords := fun _ => [], bbox := fun _ => { minX := 0, minY := 0, maxX := 0, maxY := 0 },
    bboxPolygon := fun _ => 0, area := fun a => a,
    distance := fun _ _ => 0, bearing := fun _ _ => 0,
    destination := fun _ _ _ => 0, center := fun _ => 0,
    cleanCoords := fun f => f, rewind := fun f => f,
    isEmptyGeom := fun _ => false, kinksCount := fun _ => 0,
    transformRotate := fun f _ _ => f, booleanIntersects := fun _ _ => false,
    booleanPointInPolygon := fun _ _ => false, intersect := fun _ _ => none,
    difference := fun _ _ => none, union := fun a b => some (a + b),
    dissolve := fun _ => none, buffer := fun _ _ => none,
    isMultiPolygon := fun _ => false, multiPolyParts := fun _ => [],
    polygonToLine := fun _ => none, nearestPointOnLine := fun _ p => p,
    lineIntersect := fun _ _ => [], lineSplit := fun _ _ => [],
    length := fun _ => 0, along := fun f _ => f, circle := fun _ _ _ => 0,
    cosDeg := fun _ => 1 }

/-- The scenario configuration of the specification (road 12, lot 8 by
18, park 15 percent, 2 stories, entry index 0). -/
def cfg0 : SiteConfig :=
  { roadWidth := 12, lotWidth := 8, lotDepth := 18, parkPercentage := 15,
    stories := 2, entryIndex := 0 }

/-- The scenario configuration with an entry index far beyond the
candidate count. -/
def cfg7 : SiteConfig := { cfg0 with entryIndex := 7 }

/-- A two-point boundary input. -/
def pts2 : List LatLng := [{ lat := 0, lng := 0 }, { lat := 0, lng := 1 }]

/-- A three-point boundary input. -/
def pts3 : List LatLng :=
  [{ lat := 0, lng := 0 }, { lat := 0, lng := 1 }, { lat := 1, lng := 1 }]

/-- A constant random stream. -/
def r0 : Nat → ℚ := fun _ => 0

/-- A two-candidate entrance list over the unit feature type. -/
def cands2 : List (Cand Unit) :=
  [{ midpoint := (), roadBearing := 0 }, { midpoint := (), roadBearing := 90 }]

/-- C5 (amended): for every input with fewer than 3 boundary points,
generateBuilding aborts the run and returns the empty invalid result
with zero statistics; no error message string is attached (the error
field stays absent) and no exception escapes. -/
theorem generateBuilding_fewPoints_empty {F : Type} (G : Geo F)
    (pts : List LatLng) (cfg : SiteConfig) (cons : List UserConstraint)
    (r : Nat → ℚ) (hlen : pts.length < 3) :
    generateBuilding G pts cfg cons r =
      { geometry := emptyGeometry, stats := emptyStats } := by
  unfold generateBuilding
  rw [if_pos hlen]

/-- C5 witness: the amended theorem evaluated at a concrete two-point
input. -/
theorem generateBuilding_fewPoints_empty_witness :
    pts2.length < 3 ∧
    generateBuilding geoUnit pts2 cfg0 [] r0 =
      { geometry := emptyGeometry, stats := emptyStats } :=
  ⟨by decide, generateBuilding_fewPoints_empty geoUnit pts2 cfg0 [] r0 (by decide)⟩

/-- C5 counterexample: on a concrete two-point input the result is
invalid but carries no error message string, contradicting the claim
that an error message accompanies the invalid result. -/
theorem generateBuilding_fewPoints_no_error_string :
    (generateBuilding geoUnit pts2 cfg0 [] r0).geometry.isValid = false ∧
    (generateBuilding geoUnit pts2 cfg0 [] r0).geometry.error = none := by
  exact ⟨rfl, rfl⟩

/-- C7 (amended): the perimeter notch radius equals 0.6 times the full
configured road width (in kilometers), not 0.6 times half of it; and
with no access point the perimeter walls are exactly the single
unbroken boundary loop. -/
theorem cutoutRadius_and_unbroken_perimeter {F : Type} (G : Geo F)
    (cfg : SiteConfig) (boundaryLine : F) :
    cutoutRadius cfg = 0.6 * (cfg.roadWidth / 1000) ∧
    buildWalls G cfg boundaryLine none = some [boundaryLine] :=
  ⟨by unfold cutoutRadius; ring, rfl⟩

/-- C7 counterexample: at road width 12 the notch radius written by the
source, (roadWidth/1000)*0.6, differs from 0.6 times half the road
width. -/
theorem cutoutRadius_not_half_roadWidth :
    cutoutRadius cfg0 ≠ 0.6 * ((cfg0.roadWidth / 2) / 1000) := by
  norm_num [cutoutRadius, cfg0]

/-- C9: the statistics fields totalLots, siteArea and parkArea do not
depend on the random stream: two runs on the same boundary,
configuration, constraints and oracle agree on them for any two
streams; the stream feeds only the building and tree assets. -/
theorem generateBuilding_deterministic_stats {F : Type} (G : Geo F)
    (pts : List LatLng) (cfg : SiteConfig) (cons : List UserConstraint)
    (r1 r2 : Nat → ℚ) :
    (generateBuilding G pts cfg cons r1).stats.totalLots =
      (generateBuilding G pts cfg cons r2).stats.totalLots ∧
    (generateBuilding G pts cfg cons r1).stats.siteArea =
      (generateBuilding G pts cfg cons r2).stats.siteArea ∧
    (generateBuilding G pts cfg cons r1).stats.parkArea =
      (generateBuilding G pts cfg cons r2).stats.parkArea := by
  have key : ∀ r : Nat → ℚ,
      (generateBuilding G pts cfg cons r).stats =
        (if pts.length < 3 then emptyStats
         else
           match genCore G pts cfg cons with
           | none => emptyStats
           | some (Sum.inl _) => emptyStats
           | some (Sum.inr plan) => plan.stats) := by
    intro r
    unfold generateBuilding
    by_cases hlen : pts.length < 3
    · rw [if_pos hlen, if_pos hlen]
    · rw [if_neg hlen, if_neg hlen]
      cases genCore G pts cfg cons with
      | none => rfl
      | some x =>
        cases x with
        | inl e => cases e <;> rfl
        | inr plan => rfl
  rw [key r1, key r2]
  exact ⟨rfl, rfl, rfl⟩

/-- C10: whenever generateBuilding returns an invalid result, the
statistics record is exactly emptyStats (every field zero): all four
invalid paths (too few points, empty cleaned geometry, self
intersection, top-level catch) return emptyStats, and the success path
is the only one marked valid. -/
theorem generateBuilding_invalid_zero_stats {F : Type} (G : Geo F)
    (pts : List LatLng) (cfg : SiteConfig) (cons : List UserConstraint)
    (r : Nat → ℚ)
    (h : (generateBuilding G pts cfg cons r).geometry.isValid = false) :
    (generateBuilding G pts cfg cons r).stats = emptyStats := by
  unfold generateBuilding at h ⊢
  by_cases hlen : pts.length < 3
  · rw [if_pos hlen]
  · rw [if_neg hlen] at h ⊢
    cases hc : genCore G pts cfg cons with
    | none => rfl
    | some x =>
      rw [hc] at h
      cases x with
      | inl e => cases e <;> rfl
      | inr plan =>
        exact absurd h (by simp [assembleResult])

/-- C10 witness: a concrete invalid run (two boundary points) whose
statistics are the all-zero record. -/
theorem generateBuilding_invalid_zero_stats_witness :
    (generateBuilding geoUnit pts2 cfg0 [] r0).geometry.isValid = false ∧
    (generateBuilding geoUnit pts2 cfg0 [] r0).stats = emptyStats :=
  ⟨rfl, generateBuilding_invalid_zero_stats geoUnit pts2 cfg0 [] r0 rfl⟩

/-- C3: when the cleaned closed boundary ring self-intersects (turf
kinks reports at least one crossing), generateBuilding returns an
invalid result carrying the self-intersection error string; the checked
branch returns normally, no exception escapes the entry point. -/
theorem generateBuilding_selfIntersect_invalid {F : Type} (G : Geo F)
    (pts : List LatLng) (cfg : SiteConfig) (cons : List UserConstraint)
    (r : Nat → ℚ) (p0 : F)
    (hlen : ¬ pts.length < 3)
    (hpoly : G.mkPolygon (closeRing (pts.map (fun p => (p.lng, p.lat)))) = some p0)
    (hclean : G.isEmptyGeom (G.cleanCoords p0) = false)
    (hkink : 0 < G.kinksCount (G.rewind (G.cleanCoords p0))) :
    (generateBuilding G pts cfg cons r).geometry.isValid = false ∧
    (generateBuilding G pts cfg cons r).geometry.error =
      some ("El polígono se intersecta a sí mismo") := by
  have hgc : genCore G pts cfg cons =
      some (Sum.inl (EarlyExit.selfIntersect (G.rewind (G.cleanCoords p0)))) := by
    unfold genCore
    rw [hpoly]
    simp only [hclean, Bool.false_eq_true, if_false]
    rw [if_pos hkink]
  unfold generateBuilding
  rw [if_neg hlen, hgc]
  exact ⟨rfl, rfl⟩

/-- C3 witness: the theorem evaluated on a concrete triangle under the
oracle that reports one kink. -/
theorem generateBuilding_selfIntersect_invalid_witness :
    (¬ pts3.length < 3) ∧
    ((generateBuilding geoKink pts3 cfg0 [] r0).geometry.isValid = false ∧
     (generateBuilding geoKink pts3 cfg0 [] r0).geometry.error =
       some ("El polígono se intersecta a sí mismo")) :=
  ⟨by decide,
   generateBuilding_selfIntersect_invalid geoKink pts3 cfg0 [] r0 ()
     (by decide) rfl rfl (by decide)⟩

/-- C4: when the boundary passes the self-intersection check but its
area is below 100, the `throw new Error("Area too small")` reaches the
top-level catch: the result is invalid with an empty lots array (no lot
is generated) and no exception escapes. -/
theorem generateBuilding_smallArea_invalid {F : Type} (G : Geo F)
    (pts : List LatLng) (cfg : SiteConfig) (cons : List UserConstraint)
    (r : Nat → ℚ) (p0 : F)
    (hlen : ¬ pts.length < 3)
    (hpoly : G.mkPolygon (closeRing (pts.map (fun p => (p.lng, p.lat)))) = some p0)
    (hclean : G.isEmptyGeom (G.cleanCoords p0) = false)
    (hkink : G.kinksCount (G.rewind (G.cleanCoords p0)) = 0)
    (harea : G.area (G.rewind (G.cleanCoords p0)) < 100) :
    (generateBuilding G pts cfg cons r).geometry.isValid = false ∧
    (generateBuilding G pts cfg cons r).geometry.lots = [] := by
  have hgc : genCore G pts cfg cons = none := by
    unfold genCore
    rw [hpoly]
    simp only [hclean, Bool.false_eq_true, if_false]
    rw [if_neg (by rw [hkink]; exact lt_irrefl 0), if_pos harea]
  unfold generateBuilding
  rw [if_neg hlen, hgc]
  exact ⟨rfl, rfl⟩

/-- C4 witness: the theorem evaluated on a concrete triangle under the
trivial oracle, whose area report 0 is below 100. -/
theorem generateBuilding_smallArea_invalid_witness :
    geoUnit.area () < 100 ∧
    ((generateBuilding geoUnit pts3 cfg0 [] r0).geometry.isValid = false ∧
     (generateBuilding geoUnit pts3 cfg0 [] r0).geometry.lots = []) :=
  ⟨by decide,
   generateBuilding_smallArea_invalid geoUnit pts3 cfg0 [] r0 ()
     (by decide) rfl rfl rfl (by decide)⟩

/-- C6: over a non-empty deduplicated candidate list the selection index
is entryIndex modulo the candidate count, the optional lookup succeeds
(no out-of-range access), and the built gate is exactly the gate of the
selected candidate. -/
theorem buildAccess_modulo_selection {F : Type} (G : Geo F)
    (cfg : SiteConfig) (cands : List (Cand F)) (hne : cands ≠ []) :
    ∃ c, cands[cfg.entryIndex % cands.length]? = some c ∧
      buildAccess G cfg cands = some (mkGate G cfg c) := by
  have hlen : 0 < cands.length := List.length_pos.mpr hne
  have hlt : cfg.entryIndex % cands.length < cands.length :=
    Nat.mod_lt _ hlen
  refine ⟨cands.get ⟨cfg.entryIndex % cands.length, hlt⟩, ?_, ?_⟩
  · exact List.getElem?_eq_getElem hlt
  · unfold buildAccess selectEntrance
    rw [if_pos hlen, List.getElem?_eq_getElem hlt]
    rfl

/-- C6 witness: the theorem applied to a concrete two-candidate list
with entryIndex 7, which wraps to index 1. -/
theorem buildAccess_modulo_selection_witness :
    cands2 ≠ [] ∧
    ∃ c, cands2[cfg7.entryIndex % cands2.length]? = some c ∧
      buildAccess geoUnit cfg7 cands2 = some (mkGate geoUnit cfg7 c) :=
  ⟨List.cons_ne_nil _ _,
   buildAccess_modulo_selection geoUnit cfg7 cands2 (List.cons_ne_nil _ _)⟩

/-- C8 (amended): in the sliver merge step, when the worst lot has both
a left and a right neighbor and the two neighbor areas are exactly
equal, the strict `<` comparison fails and the merge target is the
right neighbor (worstIdx + 1), not the left one. -/
theorem mergeTargetIdx_tie_breaks_right {F : Type} (G : Geo F)
    (lots : List F) (w : Nat) (h0 : 0 < w) (h1 : w + 1 < lots.length)
    (heq : (lots.map G.area).getD (w - 1) 0 = (lots.map G.area).getD (w + 1) 0) :
    mergeTargetIdx G lots w = some (w + 1) := by
  have h1b : w < lots.length - 1 := by omega
  unfold mergeTargetIdx
  have heq2 : (Option.map G.area lots[w - 1]?).getD 0 =
      (Option.map G.area lots[w + 1]?).getD 0 := by
    simpa using heq
  simp [h0, h1b]
  exact le_of_eq heq2.symm

/-- C8 witness: the amended theorem evaluated on the concrete area list
[4, 1, 4] with the worst lot in the middle and equal neighbors. -/
theorem mergeTargetIdx_tie_breaks_right_witness :
    (0 < 1 ∧ 1 + 1 < ([4, 1, 4] : List ℚ).length) ∧
    mergeTargetIdx geoQ [4, 1, 4] 1 = some 2 :=
  ⟨⟨by decide, by decide⟩,
   mergeTargetIdx_tie_breaks_right geoQ [4, 1, 4] 1 (by decide) (by decide) rfl⟩

/-- C8 counterexample: on the concrete lot list [4, 1, 4] (areas equal
on both sides of the worst lot), the merge target is the right neighbor
(index 2), so the claim that the tie is broken in favor of the left
neighbor (index 0) is false. -/
theorem mergeTargetIdx_tie_not_left :
    mergeTargetIdx geoQ [4, 1, 4] 1 = some 2 ∧
    mergeTargetIdx geoQ [4, 1, 4] 1 ≠ some 0 := by
  constructor
  · rfl
  · decide
